import Mathlib

/-!
Verification of `hydration_dashboard.py` (IoT-Based Smart Hydration Tracking System).

The repository contains two variants of the same dashboard:
* the Firebase variant (`oT-Based Smart Hydration Tracking System/hydration_dashboard.py`),
  whose forecaster runs a Holt-Winters fit and an ARIMA fit and whose recommendation
  engine has four rules (intake, consistency, timing, forecast shortfall); and
* the Windows variant (`IoT-Based Smart Hydration Tracking System/hydration_dashboard.py`),
  whose forecaster runs ARIMA with a flat-mean fallback and whose recommendation engine
  has only the intake and consistency rules.

Numeric model: Python floats are modelled as exact rationals `ℚ`.  A float value that is
NaN or infinite (which, in this code, can only arise from a division by zero or from the
undefined sample standard deviation of a singleton) is modelled as `Option.none`.
External statistical fits (statsmodels `ExponentialSmoothing.fit`, `ARIMA.fit`) are not
part of this repository; each fit outcome is an explicit `Option (List ℚ)` /
`Except String (List ℚ)` parameter, mirroring the per-method `try/except` in the source
that converts a failed fit into `None`.
-/

/-- `volumes = [level * 10 for level in water_levels]` — fill level percent to ml
(1000 ml bottle, 10 ml per percent). -/
def volumeOfLevel (level : ℚ) : ℚ := level * 10

/-- The `consumption_ml` entry for one adjacent pair of volume readings, from
`data['consumption_ml'] = -data['volume_ml'].diff().clip(lower=0)` (both variants).
`diff` is `current - previous`; by Python precedence `.clip(lower=0)` is applied to the
diff BEFORE the unary minus, so the stored value is `-(max 0 (cur - prev))`. -/
def consumptionFromPair (prev cur : ℚ) : ℚ := -(max 0 (cur - prev))

/-- The consumption formula as the specification states it:
`consumption_ml = max(0, previous_volume - current_volume)`.  Comparison definition for
claim C1 only; it is NOT what the source computes. -/
def consumptionFromPairSpec (prev cur : ℚ) : ℚ := max 0 (prev - cur)

/-- One ConsumptionSample row of the per-user DataFrame.  The timestamp is abstracted to
the derived calendar fields the analyzer actually uses: `date` (calendar-day index),
`hour` (0–23, `timestamp.dt.hour`) and `dayOfWeek` (0–6, `timestamp.dt.dayofweek`). -/
structure Sample where
  date : ℕ
  hour : ℕ
  dayOfWeek : ℕ
  consumption_ml : ℚ
deriving DecidableEq

/-- `is_drinking_event = data['consumption_ml'] > 50`. -/
def isDrinkingEvent (s : Sample) : Bool := decide (s.consumption_ml > 50)

/-- Insert into an ascending list (helper for the sorted group keys). -/
def insertAsc (x : ℕ) : List ℕ → List ℕ
  | [] => [x]
  | y :: ys => if x ≤ y then x :: y :: ys else y :: insertAsc x ys

/-- Ascending insertion sort on ℕ keys. -/
def sortAsc (l : List ℕ) : List ℕ := l.foldr insertAsc []

/-- The distinct group keys in ascending order, as pandas `groupby` yields them. -/
def sortedKeys (l : List ℕ) : List ℕ := sortAsc l.dedup

/-- `data.groupby(key)['consumption_ml'].sum()` evaluated at one key. -/
def groupSum (samples : List Sample) (key : Sample → ℕ) (k : ℕ) : ℚ :=
  ((samples.filter (fun s => key s == k)).map Sample.consumption_ml).sum

/-- The distinct dates of the sample set, ascending (`data.groupby('date')` keys). -/
def dailyDates (samples : List Sample) : List ℕ := sortedKeys (samples.map Sample.date)

/-- `daily_stats['consumption_ml']`: per-date total consumption, in date order. -/
def dailyTotals (samples : List Sample) : List ℚ :=
  (dailyDates samples).map (groupSum samples Sample.date)

/-- `daily_stats['drinking_events']`: per-date count of drinking events
(`'is_drinking_event': 'sum'` — summing booleans counts them). -/
def dailyEventCounts (samples : List Sample) : List ℚ :=
  (dailyDates samples).map
    (fun k => ((samples.filter (fun s => s.date == k && isDrinkingEvent s)).length : ℚ))

/-- pandas `Series.mean()` (only applied to non-empty series in the source). -/
def meanQ (l : List ℚ) : ℚ := l.sum / (l.length : ℚ)

/-- pandas `Series.max()` on a non-empty series (0 as an unused default for `[]`). -/
def maxQ : List ℚ → ℚ
  | [] => 0
  | x :: xs => xs.foldl max x

/-- pandas `Series.min()` on a non-empty series (0 as an unused default for `[]`). -/
def minQ : List ℚ → ℚ
  | [] => 0
  | x :: xs => xs.foldl min x

/-- pandas sample variance, `ddof = 1`.  `none` models the NaN that pandas returns for a
series with fewer than two values. -/
def sampleVar (l : List ℚ) : Option ℚ :=
  if l.length < 2 then none
  else some (((l.map (fun x => (x - meanQ l) * (x - meanQ l))).sum) / ((l.length : ℚ) - 1))

/-- Exact rational square root: `some r` when the argument is the square of the
non-negative rational `r`, `none` otherwise.  The float `std` is irrational (hence not
representable as an exact rational) whenever the variance is not a perfect rational
square; those inputs are modelled as `none` and the general theorems are stated on
inputs whose standard deviation is exact. -/
def ratSqrt (q : ℚ) : Option ℚ :=
  if Rat.sqrt q * Rat.sqrt q = q then some (Rat.sqrt q) else none

/-- pandas `Series.std()` (sample standard deviation, `ddof = 1`), exact-value model. -/
def stdQ (l : List ℚ) : Option ℚ := (sampleVar l).bind ratSqrt

/-- `consistency_score = 1 - (daily_std / daily_mean)` from `analyze_user_patterns`
(both variants).  The source divides unconditionally; when the mean is 0 the float
division yields NaN (0/0) or ±inf (x/0), i.e. an undefined value, modelled as `none`.
`none` likewise propagates from an undefined std (single-day window). -/
def consistencyScore (daily : List ℚ) : Option ℚ :=
  match stdQ daily with
  | none => none
  | some s => if meanQ daily = 0 then none else some (1 - s / meanQ daily)

/-- pandas `Series.idxmax()` over the sorted group keys: the first (smallest) key whose
value attains the maximum. -/
def idxmax (keys : List ℕ) (f : ℕ → ℚ) : ℕ :=
  match keys with
  | [] => 0
  | k :: ks => ks.foldl (fun best k2 => if f k2 > f best then k2 else best) k

/-- The analysis dict built by `analyze_user_patterns`. -/
structure UserAnalysis where
  user_id : String
  total_consumption_ml : ℚ
  avg_daily_consumption_ml : ℚ
  std_daily_consumption_ml : Option ℚ
  max_daily_consumption_ml : ℚ
  min_daily_consumption_ml : ℚ
  avg_drinking_events_per_day : ℚ
  peak_hydration_hour : ℕ
  peak_hydration_day : ℕ
  consistency_score : Option ℚ
  days_analyzed : ℕ
deriving DecidableEq

/-- `analyze_user_patterns(user_id, data)` (both variants): `if data.empty: return {}`
— the empty dict (no analysis) is modelled as `none`; otherwise the analysis dict is
built from the daily/hourly/weekly aggregates. -/
def analyzeUserPatterns (uid : String) (samples : List Sample) : Option UserAnalysis :=
  if samples.isEmpty then none
  else
    some {
      user_id := uid
      total_consumption_ml := (samples.map Sample.consumption_ml).sum
      avg_daily_consumption_ml := meanQ (dailyTotals samples)
      std_daily_consumption_ml := stdQ (dailyTotals samples)
      max_daily_consumption_ml := maxQ (dailyTotals samples)
      min_daily_consumption_ml := minQ (dailyTotals samples)
      avg_drinking_events_per_day := meanQ (dailyEventCounts samples)
      peak_hydration_hour := idxmax (sortedKeys (samples.map Sample.hour)) (groupSum samples Sample.hour)
      peak_hydration_day := idxmax (sortedKeys (samples.map Sample.dayOfWeek)) (groupSum samples Sample.dayOfWeek)
      consistency_score := consistencyScore (dailyTotals samples)
      days_analyzed := (dailyDates samples).length }

/-- One row of the forecast DataFrame. -/
structure ForecastPoint where
  forecasted_consumption_ml : ℚ
  lower_bound : ℚ
  upper_bound : ℚ
deriving DecidableEq

/-- The ensemble combination in `forecast_consumption` (Firebase variant):
`forecast_hw`/`forecast_arima` are `None` when the corresponding fit raised
(per-method `try/except`), otherwise the forecast series; if both are present their
elementwise average `(forecast_hw + forecast_arima) / 2` is used, if one is present it
is used alone, and if both failed the fallback is `[daily_consumption.mean()] *
forecast_days`. -/
def combineForecasts (hw arima : Option (List ℚ)) (daily : List ℚ) (days : ℕ) : List ℚ :=
  match hw, arima with
  | some h, some a => List.zipWith (fun x y => (x + y) / 2) h a
  | some h, none => h
  | none, some a => a
  | none, none => List.replicate days (meanQ daily)

/-- The forecast DataFrame rows: `lower_bound = values * 0.8`, `upper_bound = values * 1.2`. -/
def mkForecastPoints (vals : List ℚ) : List ForecastPoint :=
  vals.map (fun v =>
    { forecasted_consumption_ml := v, lower_bound := v * (8/10), upper_bound := v * (12/10) })

/-- `forecast_consumption(data, forecast_days)` (Firebase variant), with the two
statistical fit outcomes abstracted as `Option (List ℚ)` parameters:
`if len(data) < 48: return pd.DataFrame()` (empty), else build the forecast DataFrame
from the combined forecast values. -/
def forecastConsumption (data : List Sample) (forecastDays : ℕ)
    (hw arima : Option (List ℚ)) : List ForecastPoint :=
  if data.length < 48 then []
  else mkForecastPoints (combineForecasts hw arima (dailyTotals data) forecastDays)

/-- The body of the outer `try:` block of `forecast_consumption`, with exception
semantics made explicit.  The two fit outcomes are `Except`-valued parameters whose
`error` cases are the per-method exceptions, recovered to `None` by the inner
`try/except` pairs (`Except.toOption`).  `otherFailure` models any other exception
raised inside the `try:` block (e.g. from pandas). -/
def tryForecastBody (data : List Sample) (forecastDays : ℕ)
    (hwFit arimaFit : Except String (List ℚ)) (otherFailure : Option String) :
    Except String (List ForecastPoint) :=
  match otherFailure with
  | some e => Except.error e
  | none =>
    Except.ok (mkForecastPoints
      (combineForecasts hwFit.toOption arimaFit.toOption (dailyTotals data) forecastDays))

/-- `forecast_consumption` with its outer `try/except` and the dashboard's stored state
made explicit.  `forecastsStore` models `self.forecasts` (the method never writes any
attribute of `self`, so the state is passed through unchanged); the outer
`except Exception` returns the empty DataFrame (`Except.ok []`), so no exception
escapes the method. -/
def forecastConsumptionRun (forecastsStore : List (String × List ForecastPoint))
    (data : List Sample) (forecastDays : ℕ)
    (hwFit arimaFit : Except String (List ℚ)) (otherFailure : Option String) :
    Except String (List ForecastPoint) × List (String × List ForecastPoint) :=
  if data.length < 48 then (Except.ok [], forecastsStore)
  else
    match tryForecastBody data forecastDays hwFit arimaFit otherFailure with
    | Except.ok r => (Except.ok r, forecastsStore)
    | Except.error _ => (Except.ok [], forecastsStore)

/-- Recommendation priority labels. -/
inductive Priority
  | HIGH
  | MEDIUM
  | LOW
  | INFO
deriving DecidableEq

/-- One recommendation.  The `message` and `action` texts are presentation templates
(the spec makes the numeric values and the conditional logic the contract, not the
wording), so only `priority` and `category` are modelled. -/
structure Recommendation where
  priority : Priority
  category : String
deriving DecidableEq

/-- The recommendations dict built by `generate_recommendations`. -/
structure RecommendationSet where
  user_id : String
  current_daily_avg_ml : ℚ
  recommended_daily_ml : ℚ
  performance_ratio : ℚ
  meeting_goal : Bool
  recommendations : List Recommendation
deriving DecidableEq

/-- `RECOMMENDED_DAILY_ML = 2000`. -/
def RECOMMENDED_DAILY_ML : ℚ := 2000

/-- Float comparison `x < c` where `x` may be NaN (`none`): any comparison with NaN is
False in Python, so `none` compares as `false`. -/
def ltOpt (x : Option ℚ) (c : ℚ) : Bool :=
  match x with
  | none => false
  | some v => decide (v < c)

/-- `generate_recommendations(analysis, forecast)` — Firebase variant.
`if not analysis or forecast.empty: return {}`; then the intake three-way rule, the
consistency rule, the peak-hour timing rule, and the forecast-shortfall rule append
their recommendations in that order. -/
def generateRecommendationsFB (analysis : Option UserAnalysis)
    (forecast : List ForecastPoint) : Option RecommendationSet :=
  match analysis with
  | none => none
  | some a =>
    if forecast.isEmpty then none
    else
      let currentAvg := a.avg_daily_consumption_ml
      let ratio := currentAvg / RECOMMENDED_DAILY_ML
      let recs0 : List Recommendation :=
        if ratio < 7/10 then [{ priority := Priority.HIGH, category := "Increase Intake" }]
        else if ratio < 9/10 then [{ priority := Priority.MEDIUM, category := "Minor Adjustment" }]
        else [{ priority := Priority.INFO, category := "Great Job!" }]
      let recs1 := recs0 ++
        (if ltOpt a.consistency_score (7/10) then
          [{ priority := Priority.MEDIUM, category := "Improve Consistency" }] else [])
      let recs2 := recs1 ++
        (if 18 < a.peak_hydration_hour then
          [{ priority := Priority.LOW, category := "Timing Optimization" }] else [])
      let recs3 := recs2 ++
        (if forecast.isEmpty then []
         else if meanQ (forecast.map ForecastPoint.forecasted_consumption_ml)
             < RECOMMENDED_DAILY_ML * (8/10) then
           [{ priority := Priority.MEDIUM, category := "Projected Shortfall" }]
         else [])
      some { user_id := a.user_id
             current_daily_avg_ml := currentAvg
             recommended_daily_ml := RECOMMENDED_DAILY_ML
             performance_ratio := ratio
             meeting_goal := decide (9/10 ≤ ratio)
             recommendations := recs3 }

/-- `generate_recommendations(analysis, forecast)` — Windows variant.
`if not analysis: return {}` (the forecast argument is never read); then the intake
three-way rule and the consistency rule append their recommendations, and the variant
has no timing or forecast-shortfall rule. -/
def generateRecommendationsWin (analysis : Option UserAnalysis)
    (_forecast : List ForecastPoint) : Option RecommendationSet :=
  match analysis with
  | none => none
  | some a =>
    let currentAvg := a.avg_daily_consumption_ml
    let ratio := currentAvg / RECOMMENDED_DAILY_ML
    let recs0 : List Recommendation :=
      if ratio < 7/10 then [{ priority := Priority.HIGH, category := "Increase Intake" }]
      else if ratio < 9/10 then [{ priority := Priority.MEDIUM, category := "Minor Adjustment" }]
      else [{ priority := Priority.INFO, category := "Great Job!" }]
    let recs1 := recs0 ++
      (if ltOpt a.consistency_score (7/10) then
        [{ priority := Priority.MEDIUM, category := "Improve Consistency" }] else [])
    some { user_id := a.user_id
           current_daily_avg_ml := currentAvg
           recommended_daily_ml := RECOMMENDED_DAILY_ML
           performance_ratio := ratio
           meeting_goal := decide (9/10 ≤ ratio)
           recommendations := recs1 }

/-- The recommendation list of a result (`[]` for the empty dict). -/
def recsOf (o : Option RecommendationSet) : List Recommendation :=
  match o with
  | none => []
  | some rs => rs.recommendations

/-- Spec §4.4 rule 1 (intake level), written from the spec's words, as the spec-side
definition for the refinement claims: exactly one of HIGH/Increase (ratio < 0.7),
MEDIUM/Minor (0.7 ≤ ratio < 0.9), INFO/Great Job (ratio ≥ 0.9). -/
def intakeRuleSpec (a : UserAnalysis) : List Recommendation :=
  let ratio := a.avg_daily_consumption_ml / 2000
  if ratio < 7/10 then [{ priority := Priority.HIGH, category := "Increase Intake" }]
  else if ratio < 9/10 then [{ priority := Priority.MEDIUM, category := "Minor Adjustment" }]
  else [{ priority := Priority.INFO, category := "Great Job!" }]

/-- Spec §4.4 rule 2 (consistency), spec-side definition: at most one, only when
`consistency_score < 0.7` (NaN compares false). -/
def consistencyRuleSpec (a : UserAnalysis) : List Recommendation :=
  if ltOpt a.consistency_score (7/10) then
    [{ priority := Priority.MEDIUM, category := "Improve Consistency" }]
  else []

/-- Spec §4.4 rule 3 (timing), spec-side definition: at most one, only when
`peak_hydration_hour > 18`. -/
def timingRuleSpec (a : UserAnalysis) : List Recommendation :=
  if 18 < a.peak_hydration_hour then
    [{ priority := Priority.LOW, category := "Timing Optimization" }]
  else []

/-- Spec §4.4 rule 4 (forecast shortfall), spec-side definition: at most one, only when
the forecast is non-empty and its mean is below `2000 * 0.8`. -/
def shortfallRuleSpec (forecast : List ForecastPoint) : List Recommendation :=
  if forecast ≠ [] ∧ meanQ (forecast.map ForecastPoint.forecasted_consumption_ml) < 2000 * (8/10)
  then [{ priority := Priority.MEDIUM, category := "Projected Shortfall" }]
  else []

/-- A recommendation produced by the intake-level rule (one of its three categories). -/
def isIntakeCategory (r : Recommendation) : Bool :=
  r.category == "Increase Intake" || r.category == "Minor Adjustment" || r.category == "Great Job!"

/-- Concrete analysis used in witnesses and counterexamples: a user averaging 1000 ml a
day (ratio 0.5), consistency 0.5, evening peak hour 20. -/
def a0 : UserAnalysis :=
  { user_id := "USER_001"
    total_consumption_ml := 7000
    avg_daily_consumption_ml := 1000
    std_daily_consumption_ml := some 0
    max_daily_consumption_ml := 1000
    min_daily_consumption_ml := 1000
    avg_drinking_events_per_day := 5
    peak_hydration_hour := 20
    peak_hydration_day := 2
    consistency_score := some (1/2)
    days_analyzed := 7 }

/-- Concrete one-point forecast used in witnesses (mean 1000 < 1600). -/
def f0 : List ForecastPoint :=
  [{ forecasted_consumption_ml := 1000, lower_bound := 800, upper_bound := 1200 }]

/-- Six readings spread over three calendar dates: at least two full days of history,
but far fewer than 48 rows. -/
def data6 : List Sample :=
  [{ date := 0, hour := 8, dayOfWeek := 0, consumption_ml := 100 },
   { date := 0, hour := 20, dayOfWeek := 0, consumption_ml := 100 },
   { date := 1, hour := 8, dayOfWeek := 1, consumption_ml := 100 },
   { date := 1, hour := 20, dayOfWeek := 1, consumption_ml := 100 },
   { date := 2, hour := 8, dayOfWeek := 2, consumption_ml := 100 },
   { date := 2, hour := 20, dayOfWeek := 2, consumption_ml := 100 }]

/-- Forty-eight readings all on one calendar date: a single day of history, but enough
rows to pass the `len(data) < 48` guard. -/
def data48 : List Sample :=
  List.replicate 48 { date := 0, hour := 12, dayOfWeek := 0, consumption_ml := 100 }

/-- Claim C1: the spec says `consumption_ml = max(0, previous_volume - current_volume)`
(non-negative, positive on a drop, 0 on a refill).  The source instead computes
`-(max 0 (cur - prev))` because `.clip(lower=0)` binds before the unary minus: the
value is never positive, a 100 ml drop yields 0, and a 100 ml refill yields -100.  The
spec's formula gives 100 and 0 at the same inputs. -/
theorem C1_consumption_sign_is_flipped :
    (∀ prev cur : ℚ, consumptionFromPair prev cur ≤ 0) ∧
    consumptionFromPair 1000 900 = 0 ∧
    consumptionFromPair 900 1000 = -100 ∧
    consumptionFromPairSpec 1000 900 = 100 ∧
    consumptionFromPairSpec 900 1000 = 0 := by
  refine ⟨fun prev cur => ?_,
    by norm_num [consumptionFromPair, max_def],
    by norm_num [consumptionFromPair, max_def],
    by norm_num [consumptionFromPairSpec, max_def],
    by norm_num [consumptionFromPairSpec, max_def]⟩
  unfold consumptionFromPair
  exact neg_nonpos.mpr (le_max_left 0 _)

/-- Claim C4: on an empty sample set the Pattern Analyzer returns the distinguished
empty result (`none`, modelling the empty dict that downstream code tests with
`if not analysis`), not a zero-filled UserAnalysis; a non-empty set of zero-consumption
samples yields an actual analysis, so "no data" and "user drank 0 ml" are distinct. -/
theorem C4_empty_input_yields_no_analysis :
    analyzeUserPatterns "USER_001" [] = none ∧
    (analyzeUserPatterns "USER_001"
      [{ date := 0, hour := 9, dayOfWeek := 0, consumption_ml := 0 }]).isSome = true := by
  exact ⟨rfl, rfl⟩

/-- The exact rational square root of a square of a non-negative rational. -/
theorem ratSqrt_mul_self (s : ℚ) (hs : 0 ≤ s) : ratSqrt (s * s) = some s := by
  unfold ratSqrt
  have habs : Rat.sqrt (s * s) = s := by rw [Rat.sqrt_eq, abs_of_nonneg hs]
  rw [if_pos (by rw [habs]), habs]

/-- Claim C5 counterexample: on the daily series [0, 0] (two days, both totals zero)
the mean is 0 and the source's `1 - std/mean` is an undefined float (NaN), modelled as
`none` — no sentinel value (such as 0) is substituted, refuting the claim that a zero
mean yields a sentinel rather than a division by zero. -/
theorem C5_zero_mean_counterexample :
    consistencyScore [0, 0] = none ∧ meanQ [0, 0] = 0 := by
  constructor
  · norm_num [consistencyScore, stdQ, sampleVar, meanQ, ratSqrt]
  · simp [meanQ]

/-- Claim C5 (amended): whenever the sample standard deviation is exactly representable
(`sampleVar l = some (s * s)` with `0 ≤ s`), the consistency score equals
`1 - std/mean` when the mean of the daily totals is non-zero, and is undefined
(NaN/±inf, modelled `none`) when the mean is exactly 0 — the source performs the
division unconditionally and substitutes no sentinel. -/
theorem C5_consistency_score_formula (l : List ℚ) (s : ℚ) (hs : 0 ≤ s)
    (hvar : sampleVar l = some (s * s)) :
    (meanQ l ≠ 0 → consistencyScore l = some (1 - s / meanQ l)) ∧
    (meanQ l = 0 → consistencyScore l = none) := by
  have hstd : stdQ l = some s := by
    rw [stdQ, hvar]
    exact ratSqrt_mul_self s hs
  constructor
  · intro h
    unfold consistencyScore
    rw [hstd]
    simp [h]
  · intro h
    unfold consistencyScore
    rw [hstd]
    simp [h]

/-- Witness for C5: the daily series [0, 1000, 2000] has mean 1000 and exact sample
standard deviation 1000, and its consistency score evaluates to `1 - 1000/1000`. -/
theorem C5_consistency_score_witness :
    consistencyScore [0, 1000, 2000] = some (1 - 1000 / meanQ [0, 1000, 2000]) :=
  (C5_consistency_score_formula [0, 1000, 2000] 1000 (by norm_num)
    (by norm_num [sampleVar, meanQ])).1 (by norm_num [meanQ])

/-- Claim C10: `forecast_consumption` never lets an exception escape: whatever the two
fit outcomes and any other failure inside the `try:` block, the result is `Except.ok`
(either the built forecast or the empty DataFrame), and the dashboard's stored state is
unchanged. -/
theorem C10_forecast_never_raises (forecastsStore : List (String × List ForecastPoint))
    (data : List Sample) (forecastDays : ℕ)
    (hwFit arimaFit : Except String (List ℚ)) (otherFailure : Option String) :
    (∃ r, (forecastConsumptionRun forecastsStore data forecastDays hwFit arimaFit
        otherFailure).1 = Except.ok r) ∧
    (forecastConsumptionRun forecastsStore data forecastDays hwFit arimaFit
        otherFailure).2 = forecastsStore := by
  unfold forecastConsumptionRun
  split
  · exact ⟨⟨[], rfl⟩, rfl⟩
  · cases h : tryForecastBody data forecastDays hwFit arimaFit otherFailure with
    | ok r => exact ⟨⟨r, rfl⟩, rfl⟩
    | error e => exact ⟨⟨[], rfl⟩, rfl⟩

/-- Shared shape fact: once the row-count guard passes, the forecast has exactly the
requested number of points, given the statsmodels contract that a successful
`fit.forecast(steps=forecast_days)` returns `forecast_days` values. -/
theorem forecastConsumption_length (data : List Sample) (days : ℕ)
    (hw arima : Option (List ℚ)) (h48 : 48 ≤ data.length)
    (hhw : ∀ l, hw = some l → l.length = days)
    (har : ∀ l, arima = some l → l.length = days) :
    (forecastConsumption data days hw arima).length = days := by
  unfold forecastConsumption
  rw [if_neg (Nat.not_lt.mpr h48)]
  unfold mkForecastPoints
  rw [List.length_map]
  cases hw with
  | none =>
    cases arima with
    | none => simp [combineForecasts]
    | some a => simpa [combineForecasts] using har a rfl
  | some h =>
    cases arima with
    | none => simpa [combineForecasts] using hhw h rfl
    | some a => simp [combineForecasts, hhw h rfl, har a rfl]

/-- Claim C3 counterexample: the guard `len(data) < 48` counts DataFrame rows, not days
of history.  `data6` spans three calendar dates (at least two full days of history) yet
is refused (empty forecast), while `data48` covers a single calendar date (less than
two full days) yet produces a 7-point forecast. -/
theorem C3_counterexample :
    (dailyDates data6).length = 3 ∧
    forecastConsumption data6 7 none none = [] ∧
    (dailyDates data48).length = 1 ∧
    (forecastConsumption data48 7 none none).length = 7 := by
  refine ⟨by decide, ?_, by decide, ?_⟩
  · unfold forecastConsumption
    rw [if_pos (by decide : data6.length < 48)]
  · unfold forecastConsumption
    rw [if_neg (by decide : ¬ data48.length < 48)]
    simp [mkForecastPoints, combineForecasts]

/-- Claim C3 (amended): the Forecaster refuses exactly when the input has fewer than 48
rows — with fewer than 48 samples it returns the empty forecast, and with at least 48
samples it produces a forecast of the requested length — regardless of how many
calendar days the samples span. -/
theorem C3_refusal_is_row_count (data : List Sample) (days : ℕ)
    (hw arima : Option (List ℚ)) :
    (data.length < 48 → forecastConsumption data days hw arima = []) ∧
    (48 ≤ data.length →
      (∀ l, hw = some l → l.length = days) →
      (∀ l, arima = some l → l.length = days) →
      (forecastConsumption data days hw arima).length = days) := by
  constructor
  · intro h
    unfold forecastConsumption
    rw [if_pos h]
  · intro h48 hhw har
    exact forecastConsumption_length data days hw arima h48 hhw har

/-- Witness for C3 (amended): six rows are refused, forty-eight rows yield the
requested seven points. -/
theorem C3_refusal_witness :
    forecastConsumption data6 7 none none = [] ∧
    (forecastConsumption data48 7 none none).length = 7 :=
  ⟨(C3_refusal_is_row_count data6 7 none none).1 (by decide),
   (C3_refusal_is_row_count data48 7 none none).2 (by decide)
     (fun l h => nomatch h) (fun l h => nomatch h)⟩

/-- Claim C6: the point estimates follow the tiered ensemble policy — the produced
estimates are exactly the combined values; both fits present gives the elementwise
arithmetic mean, exactly one present is used alone, and neither present gives the
historical mean of the daily series repeated across the horizon. -/
theorem C6_tiered_ensemble_policy (data : List Sample) (days : ℕ) (h a daily : List ℚ) :
    (48 ≤ data.length → ∀ hw arima : Option (List ℚ),
        (forecastConsumption data days hw arima).map ForecastPoint.forecasted_consumption_ml
          = combineForecasts hw arima (dailyTotals data) days) ∧
    combineForecasts (some h) (some a) daily days = List.zipWith (fun x y => (x + y) / 2) h a ∧
    combineForecasts (some h) none daily days = h ∧
    combineForecasts none (some a) daily days = a ∧
    (combineForecasts none none daily days).length = days ∧
    (∀ v ∈ combineForecasts none none daily days, v = meanQ daily) := by
  refine ⟨?_, rfl, rfl, rfl, by simp [combineForecasts], ?_⟩
  · intro h48 hw arima
    unfold forecastConsumption
    rw [if_neg (Nat.not_lt.mpr h48)]
    unfold mkForecastPoints
    rw [List.map_map]
    exact List.map_id' _
  · intro v hv
    simp only [combineForecasts] at hv
    exact List.eq_of_mem_replicate hv

/-- Witness for C6: with both fits failed on `data48` the produced estimates are the
flat fallback, and the flat fallback value over the daily series [4, 6] is its mean 5. -/
theorem C6_tiered_ensemble_witness :
    ((forecastConsumption data48 7 none none).map ForecastPoint.forecasted_consumption_ml
       = combineForecasts none none (dailyTotals data48) 7) ∧
    ((5 : ℚ) = meanQ [4, 6]) := by
  constructor
  · exact (C6_tiered_ensemble_policy data48 7 [] [] []).1 (by decide) none none
  · exact (C6_tiered_ensemble_policy data48 3 [] [] [4, 6]).2.2.2.2.2 5
      (by norm_num [combineForecasts, meanQ, List.mem_replicate])

/-- Claim C7: a successful forecast has exactly `forecast_days` points, and every point
has `lower_bound = 0.8 × forecasted_consumption_ml` and
`upper_bound = 1.2 × forecasted_consumption_ml` (exact in the rational model). -/
theorem C7_forecast_shape (data : List Sample) (days : ℕ) (hw arima : Option (List ℚ))
    (h48 : 48 ≤ data.length)
    (hhw : ∀ l, hw = some l → l.length = days)
    (har : ∀ l, arima = some l → l.length = days) :
    (forecastConsumption data days hw arima).length = days ∧
    ∀ p ∈ forecastConsumption data days hw arima,
      p.lower_bound = p.forecasted_consumption_ml * (8/10) ∧
      p.upper_bound = p.forecasted_consumption_ml * (12/10) := by
  refine ⟨forecastConsumption_length data days hw arima h48 hhw har, ?_⟩
  intro p hp
  unfold forecastConsumption at hp
  rw [if_neg (Nat.not_lt.mpr h48)] at hp
  unfold mkForecastPoints at hp
  obtain ⟨v, _, rfl⟩ := List.mem_map.mp hp
  exact ⟨rfl, rfl⟩

/-- Witness for C7: a 2-day forecast over `data48` with only the Holt-Winters fit
succeeding has 2 points, and its first point's lower bound is 0.8 times its estimate. -/
theorem C7_forecast_shape_witness :
    (forecastConsumption data48 2 (some [100, 200]) none).length = 2 ∧
    ((⟨100, 100 * (8/10), 100 * (12/10)⟩ : ForecastPoint).lower_bound
       = (⟨100, 100 * (8/10), 100 * (12/10)⟩ : ForecastPoint).forecasted_consumption_ml * (8/10)) := by
  have h := C7_forecast_shape data48 2 (some [100, 200]) none (by decide)
    (by rintro l hl; cases hl; rfl) (fun l hl => nomatch hl)
  refine ⟨h.1, (h.2 ⟨100, 100 * (8/10), 100 * (12/10)⟩ ?_).1⟩
  unfold forecastConsumption mkForecastPoints combineForecasts
  rw [if_neg (by decide : ¬ data48.length < 48)]
  simp

/-- Shared refinement fact: when the analysis is present and the forecast is non-empty,
the Firebase variant's recommendation list is exactly the four spec rules' outputs
appended in the fixed order intake, consistency, timing, shortfall. -/
theorem recsOf_FB_eq_rules (a : UserAnalysis) (f : List ForecastPoint) (hf : f ≠ []) :
    recsOf (generateRecommendationsFB (some a) f)
      = intakeRuleSpec a ++ consistencyRuleSpec a ++ timingRuleSpec a ++ shortfallRuleSpec f := by
  cases f with
  | nil => exact absurd rfl hf
  | cons x xs =>
    simp only [generateRecommendationsFB, recsOf, intakeRuleSpec, consistencyRuleSpec,
      timingRuleSpec, shortfallRuleSpec, RECOMMENDED_DAILY_ML, List.isEmpty_cons,
      Bool.false_eq_true, if_false, ne_eq, List.cons_ne_nil, not_false_iff, true_and,
      List.append_assoc]

/-- Claim C9: with an analysis present and a non-empty forecast, the Firebase variant's
recommendation sequence is exactly the append (in this fixed order, never re-sorted) of
the intake rule (always one), the consistency rule (at most one, only when
`consistency_score < 0.7`), the timing rule (at most one, only when
`peak_hydration_hour > 18`) and the forecast-shortfall rule (at most one, only when the
forecast mean is below `2000 * 0.8`). -/
theorem C9_fixed_rule_order (a : UserAnalysis) (f : List ForecastPoint) (hf : f ≠ []) :
    recsOf (generateRecommendationsFB (some a) f)
      = intakeRuleSpec a ++ consistencyRuleSpec a ++ timingRuleSpec a ++ shortfallRuleSpec f ∧
    (intakeRuleSpec a).length = 1 ∧
    (consistencyRuleSpec a).length ≤ 1 ∧
    (timingRuleSpec a).length ≤ 1 ∧
    (shortfallRuleSpec f).length ≤ 1 ∧
    (consistencyRuleSpec a ≠ [] → ltOpt a.consistency_score (7/10) = true) ∧
    (timingRuleSpec a ≠ [] → 18 < a.peak_hydration_hour) ∧
    (shortfallRuleSpec f ≠ [] →
      meanQ (f.map ForecastPoint.forecasted_consumption_ml) < 2000 * (8/10)) := by
  refine ⟨recsOf_FB_eq_rules a f hf, ?_, ?_, ?_, ?_, ?_, ?_, ?_⟩
  · simp only [intakeRuleSpec]
    split_ifs <;> rfl
  · unfold consistencyRuleSpec
    split_ifs <;> simp
  · unfold timingRuleSpec
    split_ifs <;> simp
  · unfold shortfallRuleSpec
    split_ifs <;> simp
  · unfold consistencyRuleSpec
    split_ifs with h
    · intro _
      exact h
    · intro hc
      exact absurd rfl hc
  · unfold timingRuleSpec
    split_ifs with h
    · intro _
      exact h
    · intro hc
      exact absurd rfl hc
  · unfold shortfallRuleSpec
    split_ifs with h
    · intro _
      exact h.2
    · intro hc
      exact absurd rfl hc

/-- Witness for C9 at the concrete analysis `a0` and forecast `f0`, for which all four
rules fire. -/
theorem C9_fixed_rule_order_witness :
    recsOf (generateRecommendationsFB (some a0) f0)
      = intakeRuleSpec a0 ++ consistencyRuleSpec a0 ++ timingRuleSpec a0 ++ shortfallRuleSpec f0 :=
  (C9_fixed_rule_order a0 f0 (by simp [f0])).1

/-- The consistency rule never contributes an intake-category recommendation. -/
theorem countP_intake_consistency (a : UserAnalysis) :
    (consistencyRuleSpec a).countP isIntakeCategory = 0 := by
  unfold consistencyRuleSpec
  split_ifs <;> simp [isIntakeCategory]

/-- The timing rule never contributes an intake-category recommendation. -/
theorem countP_intake_timing (a : UserAnalysis) :
    (timingRuleSpec a).countP isIntakeCategory = 0 := by
  unfold timingRuleSpec
  split_ifs <;> simp [isIntakeCategory]

/-- The shortfall rule never contributes an intake-category recommendation. -/
theorem countP_intake_shortfall (f : List ForecastPoint) :
    (shortfallRuleSpec f).countP isIntakeCategory = 0 := by
  unfold shortfallRuleSpec
  split_ifs <;> simp [isIntakeCategory]

/-- The intake rule contributes exactly one intake-category recommendation. -/
theorem countP_intake_intake (a : UserAnalysis) :
    (intakeRuleSpec a).countP isIntakeCategory = 1 := by
  simp only [intakeRuleSpec]
  split_ifs <;> simp [isIntakeCategory]

/-- Claim C8: in every produced recommendation set, exactly one intake-level
recommendation is present — HIGH "Increase Intake" when the performance ratio is below
0.7, MEDIUM "Minor Adjustment" when it is in [0.7, 0.9), INFO "Great Job!" when it is
at least 0.9 — and it is the first recommendation. -/
theorem C8_intake_rule_exhaustive (a : UserAnalysis) (f : List ForecastPoint) (hf : f ≠ []) :
    (recsOf (generateRecommendationsFB (some a) f)).countP isIntakeCategory = 1 ∧
    (a.avg_daily_consumption_ml / 2000 < 7/10 →
      (recsOf (generateRecommendationsFB (some a) f)).head?
        = some { priority := Priority.HIGH, category := "Increase Intake" }) ∧
    (7/10 ≤ a.avg_daily_consumption_ml / 2000 → a.avg_daily_consumption_ml / 2000 < 9/10 →
      (recsOf (generateRecommendationsFB (some a) f)).head?
        = some { priority := Priority.MEDIUM, category := "Minor Adjustment" }) ∧
    (9/10 ≤ a.avg_daily_consumption_ml / 2000 →
      (recsOf (generateRecommendationsFB (some a) f)).head?
        = some { priority := Priority.INFO, category := "Great Job!" }) := by
  rw [recsOf_FB_eq_rules a f hf]
  refine ⟨?_, ?_, ?_, ?_⟩
  · simp [List.countP_append, countP_intake_intake, countP_intake_consistency,
      countP_intake_timing, countP_intake_shortfall]
  · intro h1
    simp only [intakeRuleSpec]
    rw [if_pos h1]
    simp
  · intro h1 h2
    simp only [intakeRuleSpec]
    rw [if_neg (not_lt.mpr h1), if_pos h2]
    simp
  · intro h1
    simp only [intakeRuleSpec]
    rw [if_neg (not_lt.mpr (le_trans (by norm_num) h1)), if_neg (not_lt.mpr h1)]
    simp

/-- Witness for C8 at `a0` (ratio 0.5): exactly one intake recommendation, and it is
the HIGH "Increase Intake" one at the head. -/
theorem C8_intake_rule_witness :
    (recsOf (generateRecommendationsFB (some a0) f0)).countP isIntakeCategory = 1 ∧
    (recsOf (generateRecommendationsFB (some a0) f0)).head?
      = some { priority := Priority.HIGH, category := "Increase Intake" } := by
  have h := C8_intake_rule_exhaustive a0 f0 (by simp [f0])
  exact ⟨h.1, h.2.1 (by norm_num [a0])⟩

/-- Claim C2 counterexample: with the non-empty analysis `a0` (whose peak hour 20 > 18
satisfies the timing condition) and an empty forecast, the Firebase variant returns the
empty result (no recommendations at all, not analysis-only ones), and the Windows
variant returns only the intake and consistency recommendations — no timing
recommendation although its condition holds. -/
theorem C2_empty_forecast_counterexample :
    generateRecommendationsFB (some a0) [] = none ∧
    recsOf (generateRecommendationsWin (some a0) [])
      = [{ priority := Priority.HIGH, category := "Increase Intake" },
         { priority := Priority.MEDIUM, category := "Improve Consistency" }] ∧
    18 < a0.peak_hydration_hour ∧
    ({ priority := Priority.LOW, category := "Timing Optimization" } : Recommendation)
      ∉ recsOf (generateRecommendationsWin (some a0) []) := by
  have h2 : recsOf (generateRecommendationsWin (some a0) [])
      = [{ priority := Priority.HIGH, category := "Increase Intake" },
         { priority := Priority.MEDIUM, category := "Improve Consistency" }] := by
    norm_num [generateRecommendationsWin, recsOf, a0, ltOpt, RECOMMENDED_DAILY_ML]
  refine ⟨rfl, h2, by norm_num [a0], ?_⟩
  rw [h2]
  decide

/-- Claim C2 (amended): on an empty forecast the Firebase variant returns the empty
result (it does not degrade to analysis-only recommendations), while the Windows
variant does not fail and returns exactly the intake recommendation plus, when its
condition holds, the consistency recommendation — that variant has no timing or
forecast-shortfall rule at all. -/
theorem C2_empty_forecast_behavior (a : UserAnalysis) :
    generateRecommendationsFB (some a) [] = none ∧
    recsOf (generateRecommendationsWin (some a) [])
      = intakeRuleSpec a ++ consistencyRuleSpec a := by
  constructor
  · rfl
  · simp only [generateRecommendationsWin, recsOf, intakeRuleSpec, consistencyRuleSpec,
      RECOMMENDED_DAILY_ML]
